import Mathlib

/-!
Verification of the resolution-and-shape-generation engine of
`graphql_client_codegen/src/codegen.rs`.

The Rust source is shallowly embedded below.  Conventions:

* A Rust `panic!` is modelled by the error branch of the `Panic` monad
  (`Except String`): `Except.error msg` is a panic carrying `msg`, and
  `Except.ok v` is a normal return of `v`.
* `proc_macro2::TokenStream` values produced by the `quote!` templates of
  `codegen.rs` are modelled structurally: each `quote!` template in the file
  becomes a constructor of `Tok` carrying exactly the data the template
  interpolates, and a token stream is a list of such items (token streams
  concatenate, which `quote!` splatting performs).
* Collaborating modules that are not part of the excerpt (`resolution`,
  `selection`, `enums`, `shared`, `heck`) are modelled as data fields or as
  function parameters, never hard-coded; the theorems hold for every choice
  of those collaborators.  Definitions derived from the specification rather
  than from source code carry a doc comment starting `Modelled from the
  spec:`.
-/

namespace Codegen

/-- The `GraphqlTypeQualifier` enum from `field_type.rs` (referenced by
`codegen.rs`): a type reference is wrapped by an ordered sequence of list and
non-null qualifiers, outermost first. -/
inductive GraphqlTypeQualifier where
  | list
  | required
deriving DecidableEq, Repr

/-- Rust type expressions, exactly the shapes built by the `quote!` fragments
inside `decorate_type` and by the `super::#ident` scalar aliases:
a plain path (ident), a `super::` path, `Vec<_>` and `Option<_>`. -/
inductive RustType where
  | path (name : String)
  | superPath (name : String)
  | vec (t : RustType)
  | option (t : RustType)
deriving DecidableEq, Repr

/-- The panic monad: `Except.error msg` models a Rust `panic!` with message
`msg`; `Except.ok` models normal return. -/
abbrev Panic := Except String

/-- The loop body of `decorate_type`: the source iterates over
`qualifiers.iter().rev()` carrying the mutable state `(non_null, qualified)`,
and panics with "double required annotation" on a `Required` qualifier seen
while `non_null` is already true.  Here the already-reversed qualifier list is
consumed front to back. -/
def decorate_type_loop :
    Bool → RustType → List GraphqlTypeQualifier → Panic (Bool × RustType)
  | non_null, qualified, [] => Except.ok (non_null, qualified)
  | true, qualified, GraphqlTypeQualifier.list :: rest =>
      decorate_type_loop false (RustType.vec qualified) rest
  | false, qualified, GraphqlTypeQualifier.list :: rest =>
      decorate_type_loop false (RustType.vec (RustType.option qualified)) rest
  | true, _, GraphqlTypeQualifier.required :: _ =>
      Except.error "double required annotation"
  | false, qualified, GraphqlTypeQualifier.required :: rest =>
      decorate_type_loop true qualified rest

/-- `decorate_type` from `codegen.rs` lines 139-175: wrap the base ident in
the nested `Vec`/`Option` layers dictated by the qualifier sequence
(processed innermost first, i.e. reversed), adding a final outer `Option`
when the outcome is still nullable. -/
def decorate_type (ident : RustType) (qualifiers : List GraphqlTypeQualifier) :
    Panic RustType :=
  match decorate_type_loop false ident qualifiers.reverse with
  | Except.error e => Except.error e
  | Except.ok (non_null, qualified) =>
      Except.ok (if !non_null then RustType.option qualified else qualified)

/-- Helper: once the (reversed) qualifier stream still to be consumed contains
two adjacent `required` qualifiers, the loop panics with the
"double required annotation" message, whatever the state. -/
theorem decorate_type_loop_double_required (l' : List GraphqlTypeQualifier) :
    ∀ (l : List GraphqlTypeQualifier) (nn : Bool) (t : RustType),
      decorate_type_loop nn t
          (l ++ GraphqlTypeQualifier.required :: GraphqlTypeQualifier.required :: l')
        = Except.error "double required annotation"
  | [], nn, t => by cases nn <;> simp [decorate_type_loop]
  | q :: l, nn, t => by
      cases nn <;> cases q <;>
        simp [decorate_type_loop, decorate_type_loop_double_required l' l]

/-- Claim C1 asserts, among its six table entries, that the qualifier sequence
`[Required, List]` decorates `T` as an optional list of required `T`
(`Option<Vec<T>>`).  The code instead produces `Vec<Option<T>>`: the sequence
is authored outermost first, so `[Required, List]` is GraphQL's `[T]!`, a
required list of optional `T`.  This refutes the claim at that input. -/
theorem C1_claim_counterexample :
    decorate_type (RustType.path "T")
        [GraphqlTypeQualifier.required, GraphqlTypeQualifier.list]
      ≠ Except.ok (RustType.option (RustType.vec (RustType.path "T"))) := by
  intro h
  have h2 :
      decorate_type (RustType.path "T")
          [GraphqlTypeQualifier.required, GraphqlTypeQualifier.list]
        = Except.ok (RustType.vec (RustType.option (RustType.path "T"))) := rfl
  rw [h2] at h
  exact absurd (Except.ok.inj h) (by decide)

/-- C1 (amended): decorating a base type `t` with a qualifier sequence
(authored outermost first, processed innermost first with a `non_null` flag
starting false) yields GraphQL's nullability semantics: `[]` gives optional
`t`; `[Required]` gives bare `t`; `[List]` gives an optional list of optional
`t`; `[Required, List]` (GraphQL `[T]!`) gives a required list of optional
`t`; `[List, Required]` (GraphQL `[T!]`) gives an optional list of required
`t`; `[Required, List, Required]` (GraphQL `[T!]!`) gives a required list of
required `t`. -/
theorem C1_decorate_type_nullability_table (t : RustType) :
    decorate_type t [] = Except.ok (RustType.option t)
    ∧ decorate_type t [GraphqlTypeQualifier.required] = Except.ok t
    ∧ decorate_type t [GraphqlTypeQualifier.list]
        = Except.ok (RustType.option (RustType.vec (RustType.option t)))
    ∧ decorate_type t [GraphqlTypeQualifier.required, GraphqlTypeQualifier.list]
        = Except.ok (RustType.vec (RustType.option t))
    ∧ decorate_type t [GraphqlTypeQualifier.list, GraphqlTypeQualifier.required]
        = Except.ok (RustType.option (RustType.vec t))
    ∧ decorate_type t
          [GraphqlTypeQualifier.required, GraphqlTypeQualifier.list,
           GraphqlTypeQualifier.required]
        = Except.ok (RustType.vec t) :=
  ⟨rfl, rfl, rfl, rfl, rfl, rfl⟩

/-- C2 (amended): a qualifier sequence containing two consecutive `Required`
qualifiers (a `Required` reached while the `non_null` flag is already true)
makes `decorate_type` panic with the descriptive message
"double required annotation"; it never returns normally on such input, and no
error value is produced through a result channel. -/
theorem C2_double_required_panics (t : RustType)
    (pre post : List GraphqlTypeQualifier) :
    decorate_type t
        (pre ++ GraphqlTypeQualifier.required :: GraphqlTypeQualifier.required :: post)
      = Except.error "double required annotation" := by
  have hrev :
      (pre ++ GraphqlTypeQualifier.required ::
          GraphqlTypeQualifier.required :: post).reverse
        = post.reverse ++ GraphqlTypeQualifier.required ::
            GraphqlTypeQualifier.required :: pre.reverse := by
    simp
  simp [decorate_type, hrev,
    decorate_type_loop_double_required pre.reverse post.reverse]

/-- A variable declaration as exposed by `VariableRef` from the `resolution`
module: the source reads `variable.name()`, `variable.type_name()` and
`variable.type_qualifiers()`. -/
structure VariableDef where
  name : String
  type_name : String
  type_qualifiers : List GraphqlTypeQualifier
deriving DecidableEq, Repr

/-- An input object field as exposed by the `resolution` module (name,
declared type name and qualifiers). -/
structure InputField where
  name : String
  type_name : String
  type_qualifiers : List GraphqlTypeQualifier
deriving DecidableEq, Repr

/-- An input object type reference: its name and its input fields. -/
structure InputObject where
  name : String
  fields : List InputField
deriving DecidableEq, Repr

/-- A fragment as exposed by `get_fragment_ref`; its contents are opaque to
`codegen.rs`, which only hands it to `selection::render_fragment`. -/
structure Fragment where
  name : String
deriving DecidableEq, Repr

/-- Modelled from the spec: the `UsedTypes` catalog built by the Used-Types
Collector (`resolution` module, not part of the excerpt) — a deduplicated,
insertion-ordered catalog of the used scalars, input objects and fragment
identities.  `codegen.rs` only iterates `scalars(..)`, `inputs(..)` and
`fragment_ids()`. -/
structure UsedTypes where
  scalars : List String
  inputs : List InputObject
  fragment_ids : List Nat
deriving DecidableEq, Repr

/-- The operation handed to `response_for_query`, restricted to what
`codegen.rs` reads from `OperationRef`: `vars` models `variables()`, the
declared variables in declaration order; `all_used_types` the
`all_used_types()` catalog; and `get_fragment_ref` the
`query().get_fragment_ref(..)` lookup by fragment identity (all supplied by
the `resolution` module). -/
structure Operation where
  vars : List VariableDef
  all_used_types : UsedTypes
  get_fragment_ref : Nat → Fragment

/-- Modelled from the spec: `OperationRef::has_no_variables` (resolution
module) — true when the operation declares zero variables. -/
def Operation.has_no_variables (operation : Operation) : Bool :=
  operation.vars.isEmpty

/-- The configuration bundle: `codegen.rs` reads only the two derive lists. -/
structure GraphQLClientCodegenOptions where
  all_response_derives : List String
  all_variable_derives : List String
deriving DecidableEq, Repr

/-- A rendered `#[derive(...)]` attribute, modelled as its ordered list of
derive idents; `render_derives` wraps exactly these idents. -/
abbrev Derives := List String

/-- `render_derives` from `codegen.rs`: turn the derive names into idents
inside one `#[derive(...)]` attribute (modelled as the ordered ident list). -/
def render_derives (derives : List String) : Derives :=
  derives

/-- The body of a generated function; the only body `codegen.rs` ever emits is
the `todo!()` placeholder of the default-value accessors. -/
inductive FnBody where
  | todoCall
deriving DecidableEq, Repr

/-- One generated `Variables` struct field, as built by
`generate_variable_struct_field`: the optional serde rename attribute, the
field ident, and its type. -/
structure VarField where
  rename_attr : Option String
  ident : String
  type : RustType
deriving DecidableEq, Repr

/-- One generated default-value accessor `pub fn default_<name>() -> <type>`,
with its placeholder body. -/
structure DefaultFn where
  name : String
  return_type : RustType
  body : FnBody
deriving DecidableEq, Repr

/-- The field holding the auxiliary tagged union inside an object-like struct:
the source emits exactly `#[serde(flatten)] pub on: #enum_name`, so the model
records the flatten attribute, the field name and the enum's name. -/
structure OnField where
  flatten : Bool
  name : String
  enum_name : String
deriving DecidableEq, Repr

/-- One generated item, one constructor per `quote!` template in
`codegen.rs`:

* `useSerde` — the `use serde::{Serialize, Deserialize};` line;
* `typeAliasDef n t` — `type n = t;` (built-in aliases and scalar aliases);
* `derivedUnitStruct d n` — `#[derive(d)] pub struct n;`;
* `bareUnitStruct n` — `pub struct n;` (input object placeholder);
* `varStruct d n fs` — `#[derive(d)] pub struct n { fs }`;
* `varImpl n ds` — `impl n { ds }` holding the default accessors;
* `objStruct d n fs on` — the object-like struct with opaque rendered fields
  `fs` and the optional flattened union field `on`;
* `unionEnum d tag n vs` — `#[derive(d)] #[serde(tag = tag)] pub enum n { vs }`
  with opaque rendered variants `vs`. -/
inductive Tok where
  | useSerde
  | typeAliasDef (name : String) (target : RustType)
  | derivedUnitStruct (derives : Derives) (name : String)
  | bareUnitStruct (name : String)
  | varStruct (derives : Derives) (name : String) (fields : List VarField)
  | varImpl (name : String) (defaults : List DefaultFn)
  | objStruct (derives : Derives) (name : String) (fields : List String)
      (on_field : Option OnField)
  | unionEnum (derives : Derives) (serde_tag : String) (name : String)
      (variants : List String)
deriving DecidableEq, Repr

/-- A token stream: an ordered sequence of generated items.  `quote!`
interpolation of several streams concatenates them. -/
abbrev TokenStream := List Tok

/-- The helper functions `codegen.rs` imports from `crate::shared` and `heck`
(not part of the excerpt): snake-casing, keyword replacement and the optional
serde rename attribute.  They are opaque to the claims, so every theorem holds
for an arbitrary choice. -/
structure Externals where
  to_snake_case : String → String
  keyword_replace : String → String
  field_rename_attr : String → String → Option String

/-- Map a panicking function over a list, stopping at the first panic — the
behaviour of consuming a panicking Rust iterator inside `quote!`. -/
def mapPanic {α β : Type} (f : α → Panic β) : List α → Panic (List β)
  | [] => Except.ok []
  | x :: xs =>
      match f x, mapPanic f xs with
      | Except.ok y, Except.ok ys => Except.ok (y :: ys)
      | Except.error e, _ => Except.error e
      | _, Except.error e => Except.error e

/-- `render_variable_field_type` from `codegen.rs`: decorate the variable's
base type name with its qualifiers. -/
def render_variable_field_type (var : VariableDef) : Panic RustType :=
  decorate_type (RustType.path var.type_name) var.type_qualifiers

/-- `generate_variable_struct_field` from `codegen.rs`: snake-case the
variable name, replace keywords, attach the rename attribute when the
snake-cased name differs, and decorate the type. -/
def generate_variable_struct_field (ext : Externals) (var : VariableDef) :
    Panic VarField :=
  let snake_case_name := ext.to_snake_case var.name
  match render_variable_field_type var with
  | Except.error e => Except.error e
  | Except.ok t =>
      Except.ok
        ⟨ext.field_rename_attr var.name snake_case_name,
         ext.keyword_replace snake_case_name, t⟩

/-- The per-variable default accessor built inside `generate_variables_struct`
(lines 79-89): `pub fn default_<name>() -> <decorated type> { todo!() }`. -/
def generate_variable_default (var : VariableDef) : Panic DefaultFn :=
  match render_variable_field_type var with
  | Except.error e => Except.error e
  | Except.ok method_return_type =>
      Except.ok ⟨"default_" ++ var.name, method_return_type, FnBody.todoCall⟩

/-- `generate_variables_struct` from `codegen.rs`: a fieldless
`pub struct Variables;` when the operation has no variables, otherwise a
`Variables` struct with one field per variable plus an `impl` block with one
default accessor per variable. -/
def generate_variables_struct (ext : Externals) (variable_derives : Derives)
    (operation : Operation) : Panic TokenStream :=
  if operation.has_no_variables then
    Except.ok [Tok.derivedUnitStruct variable_derives "Variables"]
  else
    match mapPanic (generate_variable_struct_field ext) operation.vars,
        mapPanic generate_variable_default operation.vars with
    | Except.ok variable_fields, Except.ok variable_defaults =>
        Except.ok
          [Tok.varStruct variable_derives "Variables" variable_fields,
           Tok.varImpl "Variables" variable_defaults]
    | Except.error e, _ => Except.error e
    | _, Except.error e => Except.error e

/-- `generate_scalar_definitions` from `codegen.rs`: for each used scalar,
one stream holding `type #ident = super::#ident;`. -/
def generate_scalar_definitions (operation : Operation)
    (all_used_types : UsedTypes) : List TokenStream :=
  all_used_types.scalars.map
    (fun scalar => [Tok.typeAliasDef scalar (RustType.superPath scalar)])

/-- `generate_input_object_definitions` from `codegen.rs`: for each used input
object, one stream holding the placeholder `pub struct #struct_name;`. -/
def generate_input_object_definitions (operation : Operation)
    (all_used_types : UsedTypes) (options : GraphQLClientCodegenOptions) :
    List TokenStream :=
  all_used_types.inputs.map (fun input => [Tok.bareUnitStruct input.name])

/-- `generate_fragment_definitions` from `codegen.rs`: look up each fragment
identity of the catalog, then push one `selection::render_fragment` result per
fragment into the output vector.  `render_fragment` lives in the `selection`
module (not part of the excerpt) and is a parameter. -/
def generate_fragment_definitions
    (render_fragment : Fragment → Derives → GraphQLClientCodegenOptions → TokenStream)
    (operation : Operation) (all_used_types : UsedTypes)
    (response_derives : Derives) (options : GraphQLClientCodegenOptions) :
    List TokenStream :=
  let fragments :=
    all_used_types.fragment_ids.map (fun id => operation.get_fragment_ref id)
  fragments.foldl
    (fun defs fragment => defs ++ [render_fragment fragment response_derives options])
    []

/-- `render_union_enum` from `codegen.rs`: the auxiliary tagged union,
discriminated by `#[serde(tag = "__typename")]`, holding the given variants. -/
def render_union_enum (response_derives : Derives) (enum_name : String)
    (variants : List String) : TokenStream :=
  [Tok.unionEnum response_derives "__typename" enum_name variants]

/-- `render_object_like_struct` from `codegen.rs`: the struct for a selection
on an object or interface.  When at least one variant exists, a
`#[serde(flatten)] pub on: <StructName>On` field is added and the
`<StructName>On` union enum is emitted after the struct; otherwise neither
appears. -/
def render_object_like_struct (response_derives : Derives)
    (struct_name : String) (fields : List String) (variants : List String) :
    TokenStream :=
  let p : Option OnField × TokenStream :=
    if variants.length > 0 then
      let enum_name_str := struct_name ++ "On"
      (some ⟨true, "on", enum_name_str⟩,
       render_union_enum response_derives enum_name_str variants)
    else (none, [])
  Tok.objStruct response_derives struct_name fields p.1 :: p.2

/-- The collaborator functions `response_for_query` drives that live outside
`codegen.rs` proper: `enums::generate_enum_definitions`,
`selection::render_fragment` and `selection::render_response_data_fields`.
They are opaque parameters; the theorems hold for every choice. -/
structure Collaborators where
  generate_enum_definitions :
    Operation → UsedTypes → GraphQLClientCodegenOptions → List TokenStream
  render_fragment :
    Fragment → Derives → GraphQLClientCodegenOptions → TokenStream
  render_response_data_fields :
    Operation → Derives → GraphQLClientCodegenOptions → TokenStream

/-- `response_for_query` from `codegen.rs` lines 17-62: resolve the used-types
catalog, drive the generators, and concatenate everything — the serde import,
the four built-in aliases, scalar, enum and input object definitions, the
variables struct, fragment definitions and the response data definitions —
into one stream, always returned as `Ok`. -/
def response_for_query (collab : Collaborators) (ext : Externals)
    (operation : Operation) (options : GraphQLClientCodegenOptions) :
    Panic (Except String TokenStream) :=
  let all_used_types := operation.all_used_types
  let response_derives := render_derives options.all_response_derives
  let scalar_definitions := generate_scalar_definitions operation all_used_types
  let enum_definitions :=
    collab.generate_enum_definitions operation all_used_types options
  let fragment_definitions :=
    generate_fragment_definitions collab.render_fragment operation
      all_used_types response_derives options
  let input_object_definitions :=
    generate_input_object_definitions operation all_used_types options
  match generate_variables_struct ext
      (render_derives options.all_variable_derives) operation with
  | Except.error e => Except.error e
  | Except.ok variables_struct =>
      let definitions :=
        collab.render_response_data_fields operation response_derives options
      let q : TokenStream :=
        [Tok.useSerde,
         Tok.typeAliasDef "Boolean" (RustType.path "bool"),
         Tok.typeAliasDef "Float" (RustType.path "f64"),
         Tok.typeAliasDef "Int" (RustType.path "i64"),
         Tok.typeAliasDef "ID" (RustType.path "String")]
          ++ scalar_definitions.flatten ++ enum_definitions.flatten
          ++ input_object_definitions.flatten ++ variables_struct
          ++ fragment_definitions.flatten ++ definitions
      Except.ok (Except.ok q)

/-- Helper: a successful `mapPanic` produces one output per input, in order,
each the successful image of the corresponding input. -/
theorem mapPanic_ok {α β : Type} (f : α → Panic β) :
    ∀ (l : List α) (ys : List β), mapPanic f l = Except.ok ys →
      ys.length = l.length ∧
        ∀ (i : Nat) (h1 : i < l.length) (h2 : i < ys.length),
          f (l.get ⟨i, h1⟩) = Except.ok (ys.get ⟨i, h2⟩)
  | [], ys, h => by
      simp only [mapPanic, Except.ok.injEq] at h
      subst h
      exact ⟨rfl, fun i h1 _ => absurd h1 (by simp)⟩
  | x :: xs, ys, h => by
      cases hfx : f x with
      | error e => simp [mapPanic, hfx] at h
      | ok y =>
        cases hxs : mapPanic f xs with
        | error e => simp [mapPanic, hfx, hxs] at h
        | ok ys' =>
          have ih := mapPanic_ok f xs ys' hxs
          simp only [mapPanic, hfx, hxs, Except.ok.injEq] at h
          subst h
          refine ⟨by simp [ih.1], ?_⟩
          intro i h1 h2
          cases i with
          | zero => simpa using hfx
          | succ n =>
              exact ih.2 n (by simpa using h1) (by simpa using h2)

/-- Helper: the push-into-a-vector loop of `generate_fragment_definitions` is
a map. -/
theorem foldl_push_eq_map {α β : Type} (g : α → β) :
    ∀ (l : List α) (acc : List β),
      l.foldl (fun defs x => defs ++ [g x]) acc = acc ++ l.map g
  | [], acc => by simp
  | x :: l, acc => by
      simp [List.foldl_cons, foldl_push_eq_map g l]

/-- Helper: a successfully generated variable field carries the decorated
type of its variable and the snake-cased, keyword-replaced ident. -/
theorem generate_variable_struct_field_ok (ext : Externals) (var : VariableDef)
    (fld : VarField) (h : generate_variable_struct_field ext var = Except.ok fld) :
    decorate_type (RustType.path var.type_name) var.type_qualifiers
        = Except.ok fld.type
      ∧ fld.ident = ext.keyword_replace (ext.to_snake_case var.name) := by
  unfold generate_variable_struct_field at h
  cases hr : render_variable_field_type var with
  | error e => rw [hr] at h; cases h
  | ok t =>
      rw [hr] at h
      have h2 := Except.ok.inj h
      subst h2
      exact ⟨hr, rfl⟩

/-- Helper: a successfully generated default accessor is named
`default_<variable name>`, returns the decorated type, and has the `todo!()`
placeholder body. -/
theorem generate_variable_default_ok (var : VariableDef) (dfn : DefaultFn)
    (h : generate_variable_default var = Except.ok dfn) :
    dfn.name = "default_" ++ var.name
      ∧ decorate_type (RustType.path var.type_name) var.type_qualifiers
          = Except.ok dfn.return_type
      ∧ dfn.body = FnBody.todoCall := by
  unfold generate_variable_default at h
  cases hr : render_variable_field_type var with
  | error e => rw [hr] at h; cases h
  | ok t =>
      rw [hr] at h
      have h2 := Except.ok.inj h
      subst h2
      exact ⟨rfl, hr, rfl⟩

/-- Concrete externals for witnesses: identity casing, no renames. -/
def ext0 : Externals :=
  ⟨fun s => s, fun s => s, fun _ _ => none⟩

/-- Concrete options for witnesses: empty derive lists. -/
def opts0 : GraphQLClientCodegenOptions := ⟨[], []⟩

/-- Concrete collaborators for witnesses: they contribute no items. -/
def collab0 : Collaborators :=
  ⟨fun _ _ _ => [], fun _ _ _ => [], fun _ _ _ => []⟩

/-- An empty used-types catalog. -/
def used0 : UsedTypes := ⟨[], [], []⟩

/-- An operation with no variables and an empty catalog. -/
def op0 : Operation := ⟨[], used0, fun _ => ⟨"F"⟩⟩

/-- The spec's example variable `ids: [ID!]`. -/
def var_ids : VariableDef :=
  ⟨"ids", "ID", [GraphqlTypeQualifier.list, GraphqlTypeQualifier.required]⟩

/-- An operation declaring the single variable `ids: [ID!]`. -/
def op1 : Operation := ⟨[var_ids], used0, fun _ => ⟨"F"⟩⟩

/-- A variable with a malformed double-required qualifier sequence. -/
def var_dd : VariableDef :=
  ⟨"v", "Int", [GraphqlTypeQualifier.required, GraphqlTypeQualifier.required]⟩

/-- An operation declaring the malformed variable `var_dd`. -/
def op2 : Operation := ⟨[var_dd], used0, fun _ => ⟨"F"⟩⟩

/-- A catalog holding two distinct fragment identities. -/
def used5 : UsedTypes := ⟨[], [], [0, 1]⟩

/-- An operation whose fragment table maps identity 0 to `A`, others to `B`. -/
def op5 : Operation :=
  ⟨[], used5, fun id => if id = 0 then ⟨"A"⟩ else ⟨"B"⟩⟩

/-- A concrete `render_fragment` collaborator for the C5 witness. -/
def rf0 : Fragment → Derives → GraphQLClientCodegenOptions → TokenStream :=
  fun fragment _ _ => [Tok.bareUnitStruct fragment.name]

/-- An input object with one required `Int` field. -/
def input7 : InputObject :=
  ⟨"ReviewInput", [⟨"stars", "Int", [GraphqlTypeQualifier.required]⟩]⟩

/-- A catalog holding the single input object `input7`. -/
def used7 : UsedTypes := ⟨[], [input7], []⟩

/-- A catalog holding the single custom scalar `DateTime`. -/
def used9 : UsedTypes := ⟨["DateTime"], [], []⟩

/-- The variable field generated for `var_ids` under `ext0`. -/
def fld_ids : VarField :=
  ⟨none, "ids", RustType.option (RustType.vec (RustType.path "ID"))⟩

/-- The default accessor generated for `var_ids`. -/
def dfn_ids : DefaultFn :=
  ⟨"default_ids", RustType.option (RustType.vec (RustType.path "ID")),
   FnBody.todoCall⟩

/-- The full output stream of `response_for_query` on `op0` with the trivial
collaborators: the serde import, the four built-in aliases, and the unit
`Variables` struct. -/
def q0 : TokenStream :=
  [Tok.useSerde,
   Tok.typeAliasDef "Boolean" (RustType.path "bool"),
   Tok.typeAliasDef "Float" (RustType.path "f64"),
   Tok.typeAliasDef "Int" (RustType.path "i64"),
   Tok.typeAliasDef "ID" (RustType.path "String"),
   Tok.derivedUnitStruct [] "Variables"]

/-- Modelled from the spec (stated in the spec's words, for comparison with
the source): the record claim C7 says the Input Emitter produces — one field
per input field of the type, each field's type produced by the Type-Qualifier
Decorator. -/
def input_object_record_from_spec (input : InputObject) : Panic Tok :=
  match mapPanic
      (fun fld =>
        match decorate_type (RustType.path fld.type_name) fld.type_qualifiers with
        | Except.error e => Except.error e
        | Except.ok t => Except.ok (VarField.mk none fld.name t))
      input.fields with
  | Except.error e => Except.error e
  | Except.ok flds => Except.ok (Tok.varStruct [] input.name flds)

/-- Modelled from the spec: the caller-side meaning of the `super::Name` the
scalar alias points at — the caller-supplied scalar mapping when one exists
for the name, an opaque placeholder otherwise.  `codegen.rs` itself only
emits the alias. -/
def resolve_super (mapping : String → Option String)
    (placeholder nm : String) : String :=
  match mapping nm with
  | some v => v
  | none => placeholder

/-- Claim C2 asserts that a double-required qualifier sequence is surfaced to
the caller as a terminal error result and does not panic.  In fact
`decorate_type` panics with "double required annotation" (the `Panic` error
branch models `panic!`), and `response_for_query` on an operation carrying
such a variable panics as well instead of returning any `Err` result. -/
theorem C2_claim_counterexample :
    decorate_type (RustType.path "Int")
        [GraphqlTypeQualifier.required, GraphqlTypeQualifier.required]
      = Except.error "double required annotation"
    ∧ response_for_query collab0 ext0 op2 opts0
      = Except.error "double required annotation" :=
  ⟨rfl, rfl⟩

/-- C3: `render_object_like_struct` emits the auxiliary tagged union and the
extra field holding it exactly when the variant list is non-empty; with zero
variants the struct carries only its own fields and no union type appears. -/
theorem C3_union_iff_variants (response_derives : Derives)
    (struct_name : String) (fields variants : List String) :
    (variants = [] →
      render_object_like_struct response_derives struct_name fields variants
        = [Tok.objStruct response_derives struct_name fields none])
    ∧ (variants ≠ [] →
      render_object_like_struct response_derives struct_name fields variants
        = [Tok.objStruct response_derives struct_name fields
             (some ⟨true, "on", struct_name ++ "On"⟩),
           Tok.unionEnum response_derives "__typename" (struct_name ++ "On")
             variants]) := by
  constructor
  · intro h
    subst h
    rfl
  · intro h
    cases variants with
    | nil => exact absurd rfl h
    | cons v vs => simp [render_object_like_struct, render_union_enum]

/-- Witness for C3 at concrete inputs: no variants gives no union and no
extra field; one variant gives both. -/
theorem C3_witness :
    render_object_like_struct [] "S" [] []
        = [Tok.objStruct [] "S" [] none]
    ∧ render_object_like_struct [] "S" [] ["User"]
        = [Tok.objStruct [] "S" [] (some ⟨true, "on", "SOn"⟩),
           Tok.unionEnum [] "__typename" "SOn" ["User"]] :=
  ⟨(C3_union_iff_variants [] "S" [] []).1 rfl,
   (C3_union_iff_variants [] "S" [] ["User"]).2 (by decide)⟩

/-- C4: with at least one type condition, the synthesized union is named by
appending "On" to the enclosing struct's name, carries one variant per type
condition, is discriminated by the serde tag `__typename`, and is held in a
single `#[serde(flatten)] pub on` field of the enclosing struct, so the
discriminant and variant fields serialize at the same level as the struct's
own fields. -/
theorem C4_union_shape (response_derives : Derives) (struct_name : String)
    (fields : List String) (conds : List String)
    (render_variant : String → String) (h : conds ≠ []) :
    render_object_like_struct response_derives struct_name fields
        (conds.map render_variant)
      = [Tok.objStruct response_derives struct_name fields
           (some ⟨true, "on", struct_name ++ "On"⟩),
         Tok.unionEnum response_derives "__typename" (struct_name ++ "On")
           (conds.map render_variant)]
    ∧ (conds.map render_variant).length = conds.length := by
  cases conds with
  | nil => exact absurd rfl h
  | cons c cs =>
      exact ⟨by simp [render_object_like_struct, render_union_enum], by simp⟩

/-- Witness for C4 at a single type condition `User`. -/
theorem C4_witness :
    render_object_like_struct [] "S" [] (["User"].map (fun s => s))
        = [Tok.objStruct [] "S" [] (some ⟨true, "on", "SOn"⟩),
           Tok.unionEnum [] "__typename" "SOn" (["User"].map (fun s => s))]
    ∧ (["User"].map (fun s => s)).length = ["User"].length :=
  C4_union_shape [] "S" [] ["User"] (fun s => s) (by decide)

/-- C5: `generate_fragment_definitions` renders exactly one definition per
fragment identity of the catalog — the output is the one-to-one image of the
identity list under a single `render_fragment` call — and, the catalog being
deduplicated, each identity occurs exactly once, so two call sites spreading
the same fragment share the one definition. -/
theorem C5_one_definition_per_fragment
    (render_fragment : Fragment → Derives → GraphQLClientCodegenOptions → TokenStream)
    (operation : Operation) (all_used_types : UsedTypes)
    (response_derives : Derives) (options : GraphQLClientCodegenOptions)
    (h : all_used_types.fragment_ids.Nodup) :
    generate_fragment_definitions render_fragment operation all_used_types
        response_derives options
      = all_used_types.fragment_ids.map
          (fun id =>
            render_fragment (operation.get_fragment_ref id) response_derives
              options)
    ∧ ∀ id ∈ all_used_types.fragment_ids,
        all_used_types.fragment_ids.count id = 1 := by
  constructor
  · simp [generate_fragment_definitions, foldl_push_eq_map, List.map_map,
      Function.comp]
  · intro id hid
    exact List.count_eq_one_of_mem h hid

/-- Witness for C5: two fragment identities yield exactly the two rendered
definitions, and identity 0 occurs once in the catalog. -/
theorem C5_witness :
    generate_fragment_definitions rf0 op5 used5 [] opts0
        = [[Tok.bareUnitStruct "A"], [Tok.bareUnitStruct "B"]]
    ∧ used5.fragment_ids.count 0 = 1 := by
  have h := C5_one_definition_per_fragment rf0 op5 used5 [] opts0 (by decide)
  refine ⟨?_, h.2 0 (by decide)⟩
  rw [h.1]
  rfl

/-- C6: with zero declared variables `generate_variables_struct` produces the
fieldless unit struct `Variables` (a present type, not an absent one); with
at least one variable it produces a `Variables` record with one field per
declared variable, in declaration order, each field's type produced by
`decorate_type`. -/
theorem C6_variables_shape (ext : Externals) (variable_derives : Derives)
    (operation : Operation) (flds : List VarField) (dfns : List DefaultFn)
    (hf : mapPanic (generate_variable_struct_field ext) operation.vars
        = Except.ok flds)
    (hd : mapPanic generate_variable_default operation.vars = Except.ok dfns) :
    (operation.vars = [] →
      generate_variables_struct ext variable_derives operation
        = Except.ok [Tok.derivedUnitStruct variable_derives "Variables"])
    ∧ (operation.vars ≠ [] →
      generate_variables_struct ext variable_derives operation
          = Except.ok [Tok.varStruct variable_derives "Variables" flds,
                       Tok.varImpl "Variables" dfns]
        ∧ flds.length = operation.vars.length
        ∧ ∀ (i : Nat) (h1 : i < operation.vars.length) (h2 : i < flds.length),
            decorate_type
                (RustType.path ((operation.vars.get ⟨i, h1⟩).type_name))
                ((operation.vars.get ⟨i, h1⟩).type_qualifiers)
              = Except.ok ((flds.get ⟨i, h2⟩).type)
            ∧ (flds.get ⟨i, h2⟩).ident
              = ext.keyword_replace
                  (ext.to_snake_case ((operation.vars.get ⟨i, h1⟩).name))) := by
  have hm := mapPanic_ok (generate_variable_struct_field ext) operation.vars
    flds hf
  constructor
  · intro hnil
    have hb : operation.has_no_variables = true := by
      simp [Operation.has_no_variables, hnil]
    simp [generate_variables_struct, hb]
  · intro hne
    have hb : operation.has_no_variables = false := by
      unfold Operation.has_no_variables
      cases hv : operation.vars with
      | nil => exact absurd hv hne
      | cons a l => simp
    refine ⟨?_, hm.1, ?_⟩
    · simp [generate_variables_struct, hb, hf, hd]
    · intro i h1 h2
      exact generate_variable_struct_field_ok ext _ _ (hm.2 i h1 h2)

/-- Witness for C6 on the spec's example variable `ids: [ID!]`: one field,
typed as an optional list of required `ID`. -/
theorem C6_witness :
    generate_variables_struct ext0 [] op1
        = Except.ok [Tok.varStruct [] "Variables" [fld_ids],
                     Tok.varImpl "Variables" [dfn_ids]]
    ∧ decorate_type (RustType.path "ID")
          [GraphqlTypeQualifier.list, GraphqlTypeQualifier.required]
        = Except.ok (RustType.option (RustType.vec (RustType.path "ID"))) := by
  have h := (C6_variables_shape ext0 [] op1 [fld_ids] [dfn_ids] rfl rfl).2
    (by decide)
  exact ⟨h.1, (h.2.2 0 (by decide) (by decide)).1⟩

/-- C7 claims the Input Emitter produces a record with one decorated field per
input field.  The code emits the placeholder `pub struct ReviewInput;` with
no fields at all — not the record the claim (and `input_object_record_from_spec`,
which follows the spec's words) describes. -/
theorem C7_claim_counterexample :
    generate_input_object_definitions op0 used7 opts0
        = [[Tok.bareUnitStruct "ReviewInput"]]
    ∧ input_object_record_from_spec input7
        = Except.ok (Tok.varStruct [] "ReviewInput"
            [VarField.mk none "stars" (RustType.path "Int")])
    ∧ [[Tok.bareUnitStruct "ReviewInput"]]
        ≠ [[Tok.varStruct [] "ReviewInput"
              [VarField.mk none "stars" (RustType.path "Int")]]] :=
  ⟨rfl, rfl, by decide⟩

/-- C7 (amended): for each used input object type the emitter emits exactly
one fieldless placeholder struct `pub struct <Name>;`, in catalog order; the
type's input fields are not rendered. -/
theorem C7_input_placeholder_structs (operation : Operation)
    (all_used_types : UsedTypes) (options : GraphQLClientCodegenOptions) :
    (generate_input_object_definitions operation all_used_types options).length
        = all_used_types.inputs.length
    ∧ ∀ (i : Nat) (h1 : i < all_used_types.inputs.length)
        (h2 : i < (generate_input_object_definitions operation all_used_types
            options).length),
        (generate_input_object_definitions operation all_used_types
            options).get ⟨i, h2⟩
          = [Tok.bareUnitStruct ((all_used_types.inputs.get ⟨i, h1⟩).name)] := by
  refine ⟨by simp [generate_input_object_definitions], ?_⟩
  intro i h1 h2
  simp [generate_input_object_definitions]

/-- Witness for C7 (amended) on the catalog holding `input7`. -/
theorem C7_witness :
    (generate_input_object_definitions op0 used7 opts0).length
        = used7.inputs.length
    ∧ (generate_input_object_definitions op0 used7 opts0).get ⟨0, by decide⟩
        = [Tok.bareUnitStruct "ReviewInput"] := by
  have h := C7_input_placeholder_structs op0 used7 opts0
  exact ⟨h.1, h.2 0 (by decide) (by decide)⟩

/-- C8: for each declared variable of an operation with at least one variable,
the generated `impl Variables` block exposes one accessor named
`default_<variable name>`, whose declared return type is the variable's
decorated type and whose body is the `todo!()` placeholder obligation. -/
theorem C8_default_value_accessors (ext : Externals)
    (variable_derives : Derives) (operation : Operation) (flds : List VarField)
    (dfns : List DefaultFn)
    (hf : mapPanic (generate_variable_struct_field ext) operation.vars
        = Except.ok flds)
    (hd : mapPanic generate_variable_default operation.vars = Except.ok dfns)
    (hne : operation.vars ≠ []) :
    generate_variables_struct ext variable_derives operation
        = Except.ok [Tok.varStruct variable_derives "Variables" flds,
                     Tok.varImpl "Variables" dfns]
    ∧ dfns.length = operation.vars.length
    ∧ ∀ (i : Nat) (h1 : i < operation.vars.length) (h2 : i < dfns.length),
        (dfns.get ⟨i, h2⟩).name
            = "default_" ++ ((operation.vars.get ⟨i, h1⟩).name)
        ∧ decorate_type
              (RustType.path ((operation.vars.get ⟨i, h1⟩).type_name))
              ((operation.vars.get ⟨i, h1⟩).type_qualifiers)
            = Except.ok ((dfns.get ⟨i, h2⟩).return_type)
        ∧ (dfns.get ⟨i, h2⟩).body = FnBody.todoCall := by
  have hm := mapPanic_ok generate_variable_default operation.vars dfns hd
  have hb : operation.has_no_variables = false := by
    unfold Operation.has_no_variables
    cases hv : operation.vars with
    | nil => exact absurd hv hne
    | cons a l => simp
  refine ⟨?_, hm.1, ?_⟩
  · simp [generate_variables_struct, hb, hf, hd]
  · intro i h1 h2
    exact generate_variable_default_ok _ _ (hm.2 i h1 h2)

/-- Witness for C8 on the variable `ids: [ID!]`: the accessor is named
`default_ids`, returns the decorated type, and has the placeholder body. -/
theorem C8_witness :
    generate_variables_struct ext0 [] op1
        = Except.ok [Tok.varStruct [] "Variables" [fld_ids],
                     Tok.varImpl "Variables" [dfn_ids]]
    ∧ dfn_ids.name = "default_ids"
    ∧ dfn_ids.body = FnBody.todoCall := by
  have h := C8_default_value_accessors ext0 [] op1 [fld_ids] [dfn_ids] rfl rfl
    (by decide)
  exact ⟨h.1, (h.2.2 0 (by decide) (by decide)).1, (h.2.2 0 (by decide)
    (by decide)).2.2⟩

/-- C9: the Scalar Emitter emits, for each used custom scalar, exactly one
type alias binding the scalar's name to `super::<name>` — the externally
supplied representation — whose caller-side resolution
(`resolve_super`, modelled from the spec) is the caller-supplied mapping when
one exists and the opaque placeholder otherwise. -/
theorem C9_scalar_type_aliases (operation : Operation)
    (all_used_types : UsedTypes) :
    (generate_scalar_definitions operation all_used_types).length
        = all_used_types.scalars.length
    ∧ (∀ s ∈ all_used_types.scalars,
        [Tok.typeAliasDef s (RustType.superPath s)]
          ∈ generate_scalar_definitions operation all_used_types)
    ∧ (∀ (mapping : String → Option String) (placeholder nm : String),
        (mapping nm = none →
          resolve_super mapping placeholder nm = placeholder)
        ∧ ∀ v, mapping nm = some v → resolve_super mapping placeholder nm = v) := by
  refine ⟨by simp [generate_scalar_definitions], ?_, ?_⟩
  · intro s hs
    simp only [generate_scalar_definitions, List.mem_map]
    exact ⟨s, hs, rfl⟩
  · intro mapping placeholder nm
    constructor
    · intro h
      simp [resolve_super, h]
    · intro v h
      simp [resolve_super, h]

/-- Witness for C9 on the scalar `DateTime`, both with and without a
caller-supplied mapping. -/
theorem C9_witness :
    (generate_scalar_definitions op0 used9).length = used9.scalars.length
    ∧ [Tok.typeAliasDef "DateTime" (RustType.superPath "DateTime")]
        ∈ generate_scalar_definitions op0 used9
    ∧ resolve_super (fun _ => none) "OpaquePlaceholder" "DateTime"
        = "OpaquePlaceholder"
    ∧ resolve_super (fun _ => some "chrono") "OpaquePlaceholder" "DateTime"
        = "chrono" := by
  have h := C9_scalar_type_aliases op0 used9
  exact ⟨h.1, h.2.1 "DateTime" (by decide),
    (h.2.2 (fun _ => none) "OpaquePlaceholder" "DateTime").1 rfl,
    (h.2.2 (fun _ => some "chrono") "OpaquePlaceholder" "DateTime").2 "chrono"
      rfl⟩

/-- C10: whenever `response_for_query` returns (does not panic), the
`anyhow::Result` it returns is the `Ok` case — no failure of this file is
ever surfaced through the returned result; failures such as the malformed
qualifier sequence surface as panics instead. -/
theorem C10_result_is_always_ok (collab : Collaborators) (ext : Externals)
    (operation : Operation) (options : GraphQLClientCodegenOptions)
    (r : Except String TokenStream)
    (h : response_for_query collab ext operation options = Except.ok r) :
    r.isOk = true := by
  unfold response_for_query at h
  cases hv : generate_variables_struct ext
      (render_derives options.all_variable_derives) operation with
  | error e => simp [hv] at h
  | ok vs =>
      simp only [hv] at h
      have h2 := Except.ok.inj h
      rw [← h2]
      rfl

/-- Witness for C10: a concrete run of `response_for_query` returns, and the
returned result is `Ok`. -/
theorem C10_witness : (Except.ok q0 : Except String TokenStream).isOk = true :=
  C10_result_is_always_ok collab0 ext0 op0 opts0 (Except.ok q0) rfl

end Codegen
